import Mathlib

/-!
Verification of the luckybox server core logic.

The data model and operations below are a shallow embedding of the
repository's two source files:

* `src/models/user.py` — the `User` ORM model (fields `id`, `username`,
  `luckyboxes`, `balance`, with defaults `luckyboxes = 1`, `balance = 0`).
* `src/__main__.py` — `UserMiddleware.__call__` (identity bootstrap),
  `auth` (credential validation), `get_user` (read-only user info) and
  `open_box` (the reward transaction).

The database is modelled as a list of user records; `User.filter(id=...)
.first()` becomes a `List.find?` on the id, `User.create` an append, and
`user.save()` a map that overwrites every record carrying the saved
record's primary key.  `randint(1, 1000)` is modelled as a function of an
explicit seed whose value is `1 + seed % 1000`, covering exactly the
inclusive range [1, 1000].  Code paths that raise in Python return
`Except` errors.
-/

namespace LuckyBox

/-- A user record, from `src/models/user.py`: primary key `id`, nullable
`username` (max length 32, not modelled), `luckyboxes` defaulting to 1 and
`balance` defaulting to 0.  The integer fields are plain SQL integers with
no non-negativity constraint, hence `Int`. -/
structure User where
  id : Nat
  username : Option String
  luckyboxes : Int
  balance : Int
deriving Repr, DecidableEq

/-- `User.create(id=..., username=...)` with the model's field defaults
`luckyboxes = 1`, `balance = 0`. -/
def User.create (id : Nat) (username : Option String) : User :=
  { id := id, username := username, luckyboxes := 1, balance := 0 }

/-- The database: the list of persisted user records. -/
abbrev Store := List User

/-- `User.filter(id=uid).first()`: the first record with the given id,
if any. -/
def findUser (store : Store) (uid : Nat) : Option User :=
  store.find? (fun v => v.id == uid)

/-- `user.save()`: overwrite the stored record(s) with primary key
`u.id` by `u`.  Tortoise's `save` writes all fields of the row keyed by
the primary key. -/
def saveUser (store : Store) (u : User) : Store :=
  store.map (fun v => if v.id == u.id then u else v)

/-- `User.create(...)` persists a fresh row. -/
def createUser (store : Store) (u : User) : Store :=
  store ++ [u]

/-- `randint(lo, hi)` (inclusive on both ends) modelled on an explicit
seed: the value is `lo + seed % (hi + 1 - lo)`. -/
def randint (lo hi seed : Nat) : Nat :=
  lo + seed % (hi + 1 - lo)

/-- The JSON body returned by `open_box`:
`{"win": ..., "current_luckyboxes": ..., "current_balance": ...}`. -/
structure OpenBoxResponse where
  win : Int
  current_luckyboxes : Int
  current_balance : Int
deriving Repr, DecidableEq

/-- An unhandled Python exception escaping a handler.
`attributeErrorNoneType` is the `AttributeError` raised when
`User.filter(...).first()` returned `None` and the handler dereferences
it (`user.luckyboxes`, `from_tortoise_orm(user)`). -/
inductive ServerError where
  | attributeErrorNoneType
deriving Repr, DecidableEq

/-- The load phase of `open_box` (line 185 of `src/__main__.py`):
read the current record for the authenticated id. -/
def open_box_load (store : Store) (uid : Nat) : Option User :=
  findUser store uid

/-- The mutate-and-persist phase of `open_box` (lines 186-192):
decrement `luckyboxes`, add `win` to `balance`, save, and build the JSON
response from the post-mutation fields.  `u` is the snapshot obtained by
the load phase; `store` is the database at save time. -/
def open_box_commit (store : Store) (u : User) (win : Int) :
    Store × OpenBoxResponse :=
  let u' : User := { u with luckyboxes := u.luckyboxes - 1,
                            balance := u.balance + win }
  (saveUser store u',
   { win := win, current_luckyboxes := u'.luckyboxes,
     current_balance := u'.balance })

/-- `open_box` (`POST /api/open`): draw `win = randint(1, 1000)`, load the
record of the authenticated user id, decrement its `luckyboxes`, credit
`balance`, save, and return the post-mutation values.  When no record
exists, `User.filter(...).first()` is `None` and `user.luckyboxes`
raises `AttributeError`.  There is no guard on `luckyboxes`. -/
def open_box (store : Store) (uid : Nat) (seed : Nat) :
    Except ServerError (Store × OpenBoxResponse) :=
  let win : Int := (randint 1 1000 seed : Nat)
  match open_box_load store uid with
  | none => .error .attributeErrorNoneType
  | some u => .ok (open_box_commit store u win)

/-- `get_user` (`GET /api/user`): load the record of the authenticated
user id and return it serialised; the store is never written.  On a
missing record, `from_tortoise_orm(None)` raises. -/
def get_user (store : Store) (uid : Nat) :
    Store × Except ServerError User :=
  match findUser store uid with
  | none => (store, .error .attributeErrorNoneType)
  | some u => (store, .ok u)

/-- Outcome of `UserMiddleware.__call__`: either the middleware answered
the sender with a prompt and stopped, or it invoked the downstream
handler with `data["user"] = user`. -/
inductive MiddlewareResult where
  | prompt (msg : String)
  | handled (user : User)
deriving Repr, DecidableEq

/-- Python truthiness of `event.from_user.username`:
`not username` is true when the username is `None` or the empty string. -/
def usernameMissing : Option String → Bool
  | none => true
  | some s => s.isEmpty

/-- `UserMiddleware.__call__` (lines 43-57 of `src/__main__.py`): if the
sender has no username, answer with a prompt; otherwise find the user
record by id, create it with the model defaults if absent, and invoke
the handler with the record. -/
def userMiddleware (store : Store) (uid : Nat) (uname : Option String) :
    Store × MiddlewareResult :=
  if usernameMissing uname then
    (store, .prompt "You need to set your username to use this bot.")
  else
    match findUser store uid with
    | some user => (store, .handled user)
    | none =>
      let user := User.create uid uname
      (createUser store user, .handled user)

/-- The identity extracted by `safe_parse_webapp_init_data`.  Only the
user id is consumed downstream (`auth_data.user.id`). -/
structure AuthData where
  userId : Nat
deriving Repr, DecidableEq

/-- The two internally distinct failure paths of `auth`:
the `Authorization` header is absent/falsy (the `else` branch at line
75), or `safe_parse_webapp_init_data` raised on a malformed or badly
signed credential (the `except` branch at line 76). -/
inductive AuthFailure where
  | missingCredential
  | invalidSignature
deriving Repr, DecidableEq

/-- An `HTTPException(status, {"error": message})`. -/
structure HttpError where
  status : Nat
  message : String
deriving Repr, DecidableEq

/-- The one HTTP error `auth` ever raises:
`HTTPException(401, {"error": "Unauthorized"})`. -/
def unauthorized : HttpError :=
  { status := 401, message := "Unauthorized" }

/-- `auth` (lines 60-77 of `src/__main__.py`): read the `Authorization`
header; if falsy (absent or empty), fail on the missing-credential path;
otherwise run `safe_parse_webapp_init_data` (modelled by the `parse`
argument, `none` meaning the parser raised) and fail on the
invalid-signature path when it raises.  The store is threaded through
unchanged: the function performs no database operation. -/
def auth (store : Store) (header : Option String)
    (parse : String → Option AuthData) :
    Store × Except AuthFailure AuthData :=
  match header with
  | none => (store, .error .missingCredential)
  | some s =>
    if s.isEmpty then (store, .error .missingCredential)
    else
      match parse s with
      | some d => (store, .ok d)
      | none => (store, .error .invalidSignature)

/-- How either failure of `auth` reaches the boundary: both branches
raise the same `HTTPException(401, {"error": "Unauthorized"})`. -/
def surfaceAuth : Except AuthFailure AuthData → Except HttpError AuthData
  | .ok d => .ok d
  | .error _ => .error unauthorized

/-! ### Helper lemmas -/

/-- A record found by id carries that id. -/
lemma findUser_id {store : Store} {uid : Nat} {u : User}
    (h : findUser store uid = some u) : u.id = uid := by
  have hp := List.find?_some h
  simpa using hp

/-- Saving a record over a store that holds a record with the same id
makes the saved record the one found afterwards. -/
lemma findUser_saveUser {store : Store} {uid : Nat} {u u' : User}
    (hfind : findUser store uid = some u) (hid : u'.id = uid) :
    findUser (saveUser store u') uid = some u' := by
  induction store with
  | nil => simp [findUser] at hfind
  | cons v t ih =>
    have hsave : saveUser (v :: t) u' =
        (if v.id == u'.id then u' else v) :: saveUser t u' := rfl
    by_cases hv : v.id = uid
    · have h1 : (v.id == u'.id) = true := by simp [hid, hv]
      have h2 : (u'.id == uid) = true := by simp [hid]
      rw [hsave, h1]
      unfold findUser
      simpa using List.find?_cons_of_pos (p := fun w => w.id == uid)
        (saveUser t u') h2
    · have h1 : (v.id == u'.id) = false := by simp [hid, hv]
      have h3 : ¬ ((fun w : User => w.id == uid) v = true) := by simp [hv]
      have hstep := List.find?_cons_of_neg
        (p := fun w : User => w.id == uid) (a := v) t h3
      have htail : findUser t uid = some u := by
        unfold findUser at hfind ⊢
        rw [hstep] at hfind
        exact hfind
      have hstep2 := List.find?_cons_of_neg
        (p := fun w : User => w.id == uid) (a := v) (saveUser t u') h3
      have hhead : (if v.id == u'.id then u' else v) = v := by simp [h1]
      rw [hsave, hhead]
      unfold findUser at ih ⊢
      rw [hstep2]
      exact ih htail

/-- Creating a record in a store that has none with its id makes it the
one found afterwards. -/
lemma findUser_createUser {store : Store} {uid : Nat} {u : User}
    (hfind : findUser store uid = none) (hid : u.id = uid) :
    findUser (createUser store u) uid = some u := by
  unfold findUser createUser
  rw [List.find?_append]
  unfold findUser at hfind
  simp [hfind, hid]

/-- Records whose id differs from the saved record's id survive a save
unchanged. -/
lemma mem_saveUser_of_ne {store : Store} {u v : User}
    (hv : v ∈ store) (hne : v.id ≠ u.id) : v ∈ saveUser store u := by
  unfold saveUser
  rw [List.mem_map]
  exact ⟨v, hv, by simp [hne]⟩

/-- The reward draw lies in the inclusive range [1, 1000]. -/
lemma randint_mem (seed : Nat) :
    1 ≤ randint 1 1000 seed ∧ randint 1 1000 seed ≤ 1000 := by
  unfold randint
  omega

/-! ### Claims -/

/-- C1: the claim says `open_box` fails with `NoBoxesAvailableError` when
`remaining_boxes <= 0` and performs no mutation, so on a record with one
box the second call must fail.  The code has no such guard: starting from
a record with `luckyboxes = 1`, the first call succeeds returning 0 boxes,
and the second call also succeeds, persisting `luckyboxes = -1`. -/
theorem open_box_no_guard_code_bug :
    open_box [⟨1, some "a", 1, 0⟩] 1 0 =
      .ok ([⟨1, some "a", 0, 1⟩], ⟨1, 0, 1⟩) ∧
    open_box [⟨1, some "a", 0, 1⟩] 1 0 =
      .ok ([⟨1, some "a", -1, 2⟩], ⟨1, -1, 2⟩) :=
  ⟨rfl, rfl⟩

/-- C2: the claim says `remaining_boxes >= 0` holds in every reachable
state.  A reachable state violates it: create a fresh record through the
middleware (one box), then call `open_box` twice; the committed record
has `luckyboxes = -1 < 0`. -/
theorem remaining_boxes_nonneg_code_bug :
    userMiddleware [] 1 (some "a") =
      ([⟨1, some "a", 1, 0⟩], .handled ⟨1, some "a", 1, 0⟩) ∧
    open_box [⟨1, some "a", 1, 0⟩] 1 5 =
      .ok ([⟨1, some "a", 0, 6⟩], ⟨6, 0, 6⟩) ∧
    open_box [⟨1, some "a", 0, 6⟩] 1 5 =
      .ok ([⟨1, some "a", -1, 12⟩], ⟨6, -1, 12⟩) ∧
    findUser [⟨1, some "a", -1, 12⟩] 1 = some ⟨1, some "a", -1, 12⟩ ∧
    ((-1 : Int) < 0) :=
  ⟨rfl, rfl, rfl, rfl, by decide⟩

/-- C4: every successful `open_box` response carries a `win` in the
inclusive range [1, 1000]. -/
theorem open_box_win_in_range (store : Store) (uid seed : Nat)
    (st : Store) (r : OpenBoxResponse)
    (h : open_box store uid seed = .ok (st, r)) :
    1 ≤ r.win ∧ r.win ≤ 1000 := by
  unfold open_box at h
  cases hfind : open_box_load store uid with
  | none => rw [hfind] at h; cases h
  | some u =>
    rw [hfind] at h
    simp only [Except.ok.injEq] at h
    have hr : r.win = ((randint 1 1000 seed : Nat) : Int) := by
      have hsnd : (open_box_commit store u
          ((randint 1 1000 seed : Nat) : Int)).2 = r := congrArg Prod.snd h
      rw [← hsnd]
      rfl
    have hb := randint_mem seed
    constructor
    · rw [hr]; exact_mod_cast hb.1
    · rw [hr]; exact_mod_cast hb.2

/-- C4 witness: a concrete successful call, with its `win` in range. -/
theorem open_box_win_in_range_witness :
    1 ≤ (OpenBoxResponse.mk 1 0 1).win ∧
    (OpenBoxResponse.mk 1 0 1).win ≤ 1000 :=
  open_box_win_in_range [⟨1, some "a", 1, 0⟩] 1 0
    [⟨1, some "a", 0, 1⟩] ⟨1, 0, 1⟩ rfl

/-- C3: a successful `open_box` decrements `luckyboxes` by exactly 1,
credits `balance` with exactly the drawn `win`, persists the mutated
record (it is what a subsequent lookup finds), and returns the
post-mutation values in the response. -/
theorem open_box_success_spec (store : Store) (uid seed : Nat) (u : User)
    (h : findUser store uid = some u) :
    open_box store uid seed =
      .ok (saveUser store
             { u with luckyboxes := u.luckyboxes - 1,
                      balance := u.balance + (randint 1 1000 seed : Nat) },
           { win := (randint 1 1000 seed : Nat),
             current_luckyboxes := u.luckyboxes - 1,
             current_balance := u.balance + (randint 1 1000 seed : Nat) }) ∧
    findUser (saveUser store
        { u with luckyboxes := u.luckyboxes - 1,
                 balance := u.balance + (randint 1 1000 seed : Nat) }) uid =
      some { u with luckyboxes := u.luckyboxes - 1,
                    balance := u.balance + (randint 1 1000 seed : Nat) } := by
  have hid : u.id = uid := findUser_id h
  constructor
  · unfold open_box open_box_load
    rw [h]
    rfl
  · exact findUser_saveUser h hid

/-- C3 witness: the spec scenario — one box, zero balance, draw 500
(seed 499): response `{win: 500, current_luckyboxes: 0,
current_balance: 500}` and the persisted record matches. -/
theorem open_box_success_spec_witness :
    open_box [⟨1, some "a", 1, 0⟩] 1 499 =
      .ok ([⟨1, some "a", 0, 500⟩], ⟨500, 0, 500⟩) ∧
    findUser [⟨1, some "a", 0, 500⟩] 1 = some ⟨1, some "a", 0, 500⟩ := by
  exact open_box_success_spec [⟨1, some "a", 1, 0⟩] 1 499
    ⟨1, some "a", 1, 0⟩ rfl

/-- C5: the claim says `open_box` on a missing record fails with
`NotFoundError`.  The code instead dereferences the `None` returned by
`User.filter(...).first()`, raising `AttributeError` (surfaced as an
HTTP 500); no store mutation occurs since the error precedes any save. -/
theorem open_box_missing_user_code_bug :
    open_box [] 7 0 = .error .attributeErrorNoneType :=
  rfl

/-- C7: when the sender's username is absent or empty, the middleware
answers with the set-your-username prompt, creates no record (the store
is returned unchanged) and never invokes the downstream handler. -/
theorem missing_username_refused (store : Store) (uid : Nat)
    (uname : Option String) (h : usernameMissing uname = true) :
    userMiddleware store uid uname =
      (store, .prompt "You need to set your username to use this bot.") := by
  simp [userMiddleware, h]

/-- C7 witness: a sender with no username, against the empty store. -/
theorem missing_username_refused_witness :
    userMiddleware [] 1 none =
      ([], .prompt "You need to set your username to use this bot.") :=
  missing_username_refused [] 1 none rfl

/-- C6: with a non-empty username, the middleware returns the existing
record unchanged when one exists, otherwise creates one with the model
defaults (`luckyboxes = 1`, `balance = 0`); a second call for the same
identity leaves the store as it is and returns the same result, so no
duplicate is ever created. -/
theorem resolve_or_create_user_spec (store : Store) (uid : Nat)
    (uname : String) (hu : uname.isEmpty = false) :
    (User.create uid (some uname)).luckyboxes = 1 ∧
    (User.create uid (some uname)).balance = 0 ∧
    (∀ u, findUser store uid = some u →
      userMiddleware store uid (some uname) = (store, .handled u)) ∧
    (findUser store uid = none →
      userMiddleware store uid (some uname) =
        (createUser store (User.create uid (some uname)),
         .handled (User.create uid (some uname)))) ∧
    userMiddleware (userMiddleware store uid (some uname)).1 uid
        (some uname) =
      userMiddleware store uid (some uname) := by
  refine ⟨rfl, rfl, ?_, ?_, ?_⟩
  · intro u hf
    simp [userMiddleware, usernameMissing, hu, hf]
  · intro hf
    simp [userMiddleware, usernameMissing, hu, hf]
  · cases hf : findUser store uid with
    | some u => simp [userMiddleware, usernameMissing, hu, hf]
    | none =>
      have hcreate : userMiddleware store uid (some uname) =
          (createUser store (User.create uid (some uname)),
           .handled (User.create uid (some uname))) := by
        simp [userMiddleware, usernameMissing, hu, hf]
      have hfound : findUser (createUser store (User.create uid (some uname)))
          uid = some (User.create uid (some uname)) :=
        findUser_createUser hf rfl
      rw [hcreate]
      simp [userMiddleware, usernameMissing, hu, hfound]

/-- C6 witness: the empty store and username `"a"` — the record is
created with the defaults, and the second call changes nothing. -/
theorem resolve_or_create_user_spec_witness :
    (User.create 1 (some "a")).luckyboxes = 1 ∧
    (User.create 1 (some "a")).balance = 0 ∧
    (∀ u, findUser [] 1 = some u →
      userMiddleware [] 1 (some "a") = ([], .handled u)) ∧
    (findUser [] 1 = none →
      userMiddleware [] 1 (some "a") =
        (createUser [] (User.create 1 (some "a")),
         .handled (User.create 1 (some "a")))) ∧
    userMiddleware (userMiddleware [] 1 (some "a")).1 1 (some "a") =
      userMiddleware [] 1 (some "a") :=
  resolve_or_create_user_spec [] 1 "a" rfl

/-- C8: `auth` fails on the internally distinct missing-credential path
when the header is absent or empty and on the invalid-signature path
when the parser raises; both failures surface at the boundary as the
same opaque `HTTPException(401, "Unauthorized")`, the two internal
causes are distinct values, and the store is never touched. -/
theorem auth_failure_modes (store : Store)
    (parse : String → Option AuthData) :
    auth store none parse = (store, .error .missingCredential) ∧
    auth store (some "") parse = (store, .error .missingCredential) ∧
    (∀ s, s.isEmpty = false → parse s = none →
      auth store (some s) parse = (store, .error .invalidSignature)) ∧
    surfaceAuth (.error .missingCredential) = .error unauthorized ∧
    surfaceAuth (.error .invalidSignature) = .error unauthorized ∧
    AuthFailure.missingCredential ≠ AuthFailure.invalidSignature ∧
    (∀ header, (auth store header parse).1 = store) := by
  refine ⟨rfl, rfl, ?_, rfl, rfl, by decide, ?_⟩
  · intro s hs hp
    simp [auth, hs, hp]
  · intro header
    cases header with
    | none => rfl
    | some s =>
      by_cases hs : s.isEmpty
      · simp [auth, hs]
      · cases hp : parse s <;>
          simp [auth, Bool.of_not_eq_true hs, hp]

/-- C8 witness: the concrete always-raising parser, against the empty
store. -/
theorem auth_failure_modes_witness :
    auth [] none (fun _ => none) = ([], .error .missingCredential) ∧
    auth [] (some "") (fun _ => none) = ([], .error .missingCredential) ∧
    (∀ s, s.isEmpty = false → (fun _ : String => (none : Option AuthData)) s = none →
      auth [] (some s) (fun _ => none) = ([], .error .invalidSignature)) ∧
    surfaceAuth (.error .missingCredential) = .error unauthorized ∧
    surfaceAuth (.error .invalidSignature) = .error unauthorized ∧
    AuthFailure.missingCredential ≠ AuthFailure.invalidSignature ∧
    (∀ header, (auth [] header (fun _ => none)).1 = []) :=
  auth_failure_modes [] (fun _ => none)

/-- C9: the claim says N concurrent `open_box` calls on a user with
`remaining_boxes = N` give N successes, final `remaining_boxes = 0` and
`balance` the sum of the draws.  The read-modify-write sequence is not
serialized: if two calls (wins 3 and 5) both load the same snapshot
(`luckyboxes = 2`) before either saves, both succeed but the second save
overwrites the first, leaving `luckyboxes = 1` and `balance = 5` instead
of 0 and 8 — a lost update. -/
theorem open_box_lost_update_code_bug :
    open_box_load [⟨1, some "a", 2, 0⟩] 1 = some ⟨1, some "a", 2, 0⟩ ∧
    open_box_commit [⟨1, some "a", 2, 0⟩] ⟨1, some "a", 2, 0⟩ 3 =
      ([⟨1, some "a", 1, 3⟩], ⟨3, 1, 3⟩) ∧
    open_box_commit [⟨1, some "a", 1, 3⟩] ⟨1, some "a", 2, 0⟩ 5 =
      ([⟨1, some "a", 1, 5⟩], ⟨5, 1, 5⟩) ∧
    findUser [⟨1, some "a", 1, 5⟩] 1 = some ⟨1, some "a", 1, 5⟩ ∧
    ((1 : Int) ≠ 0 ∧ (5 : Int) ≠ 3 + 5) :=
  ⟨rfl, rfl, rfl, rfl, by decide⟩

/-- C10: a successful `open_box` writes back a record with the same `id`
and `username` as the loaded one — only `luckyboxes` and `balance`
change — records of other identities survive untouched, and `get_user`
returns the store unmodified. -/
theorem open_box_frame (store : Store) (uid seed : Nat) (u : User)
    (hfind : findUser store uid = some u) :
    (({ u with luckyboxes := u.luckyboxes - 1,
               balance := u.balance + (randint 1 1000 seed : Nat) } :
        User).id = u.id) ∧
    (({ u with luckyboxes := u.luckyboxes - 1,
               balance := u.balance + (randint 1 1000 seed : Nat) } :
        User).username = u.username) ∧
    open_box store uid seed =
      .ok (saveUser store
             { u with luckyboxes := u.luckyboxes - 1,
                      balance := u.balance + (randint 1 1000 seed : Nat) },
           { win := (randint 1 1000 seed : Nat),
             current_luckyboxes := u.luckyboxes - 1,
             current_balance := u.balance + (randint 1 1000 seed : Nat) }) ∧
    (∀ v ∈ store, v.id ≠ uid →
      v ∈ saveUser store
            { u with luckyboxes := u.luckyboxes - 1,
                     balance := u.balance + (randint 1 1000 seed : Nat) }) ∧
    get_user store uid = (store, .ok u) := by
  have hid : u.id = uid := findUser_id hfind
  refine ⟨rfl, rfl, ?_, ?_, ?_⟩
  · unfold open_box open_box_load
    rw [hfind]
    rfl
  · intro v hv hvne
    exact mem_saveUser_of_ne hv (fun hEq => hvne (hEq.trans hid))
  · unfold get_user
    rw [hfind]

/-- C10 witness: the one-record store; the saved record keeps `id` and
`username`, and `get_user` changes nothing. -/
theorem open_box_frame_witness :
    ((⟨1, some "a", 0, 1⟩ : User).id = (⟨1, some "a", 1, 0⟩ : User).id) ∧
    ((⟨1, some "a", 0, 1⟩ : User).username =
      (⟨1, some "a", 1, 0⟩ : User).username) ∧
    open_box [⟨1, some "a", 1, 0⟩] 1 0 =
      .ok ([⟨1, some "a", 0, 1⟩], ⟨1, 0, 1⟩) ∧
    (∀ v ∈ ([⟨1, some "a", 1, 0⟩] : Store), v.id ≠ 1 →
      v ∈ ([⟨1, some "a", 0, 1⟩] : Store)) ∧
    get_user [⟨1, some "a", 1, 0⟩] 1 =
      ([⟨1, some "a", 1, 0⟩], .ok ⟨1, some "a", 1, 0⟩) := by
  exact open_box_frame [⟨1, some "a", 1, 0⟩] 1 0 ⟨1, some "a", 1, 0⟩ rfl

end LuckyBox
